import Mathlib

/-
A verification development for the Greenlight movie-catalog API
(Go sources under cmd/api and internal/...). The Go code is shallowly
embedded: pure helpers become Lean functions, the SQL store becomes an
explicit list of rows with the statements of each query modelled over it,
fallible operations return Except, and a Go panic is modelled as a
distinguished result (Option.none or an explicit outcome constructor).
-/

namespace Greenlight

/-! ## Go string primitives used by the embedded code -/

/-- Character-level splitter behind goSplitSpace; splitting an empty list
yields one empty group, matching Go strings.Split semantics for a
one-character separator. -/
def splitOnChar (sep : Char) : List Char → List (List Char)
  | [] => [[]]
  | c :: cs =>
    let r := splitOnChar sep cs
    if c = sep then [] :: r
    else
      match r with
      | [] => [[c]]
      | g :: gs => (c :: g) :: gs

/-- Embedding of Go strings.Split(s, " "). -/
def goSplitSpace (s : String) : List String :=
  (splitOnChar ' ' s.data).map (fun cs => String.mk cs)

/-- Number of bytes of the UTF-8 encoding of one character. -/
def charUtf8Size (c : Char) : Nat :=
  if c.toNat < 0x80 then 1 else if c.toNat < 0x800 then 2
  else if c.toNat < 0x10000 then 3 else 4

/-- Embedding of Go len(s) on a string: the byte length of its UTF-8
encoding. -/
def goLen (s : String) : Nat := (s.data.map charUtf8Size).sum

/-- Embedding of Go strings.HasPrefix. -/
def goHasPrefix (s pre : String) : Bool := pre.data.isPrefixOf s.data

/-- Embedding of Go strings.TrimPrefix: drop the prefix when present,
otherwise return the string unchanged. -/
def goTrimPrefix (s pre : String) : String :=
  if goHasPrefix s pre then String.mk (s.data.drop pre.data.length) else s

/-! ## internal/validator: the Validator type

The Go Validator holds a map[string]string of field errors. A Go map is
modelled as an association list in which a key occurs at most once;
AddError preserves that shape because it inserts only when the key is
absent. -/

/-- First message stored under a key, scanning the association list from
the front. -/
def findMsg (l : List (String × String)) (k : String) : Option String :=
  match l with
  | [] => none
  | (k2, m) :: rest => if k2 = k then some m else findMsg rest k

/-- Embedding of validator.Validator: the Errors map as an association
list. -/
structure Validator where
  errors : List (String × String)
deriving DecidableEq

/-- Embedding of validator.New: an initialized empty errors map. -/
def Validator.new : Validator := ⟨[]⟩

/-- Embedding of Validator.Valid: true iff the errors map is empty. -/
def Validator.valid (v : Validator) : Bool := v.errors.isEmpty

/-- Embedding of Validator.AddError: add the message only if the key does
not already exist in the map. -/
def Validator.addError (v : Validator) (key message : String) : Validator :=
  match findMsg v.errors key with
  | some _ => v
  | none => ⟨v.errors ++ [(key, message)]⟩

/-- Embedding of Validator.Check: record the message iff the condition is
false. -/
def Validator.check (v : Validator) (ok : Bool) (key message : String) : Validator :=
  if ok then v else v.addError key message

/-- A sequence of further Check calls applied in order, each given by its
condition, key and message. -/
def Validator.applyChecks (v : Validator) : List (Bool × String × String) → Validator
  | [] => v
  | (b, k, m) :: rest => (v.check b k m).applyChecks rest

/-! ## internal/data/filters.go: Filters, sort safelist -/

/-- Embedding of data.Filters. The Go field names Page, PageSize, Sort and
SortSafelist are written in lower case because Sort is a Lean keyword. -/
structure Filters where
  page : Int
  pageSize : Int
  sort : String
  sortSafelist : List String

/-- Loop body of Filters.sortColumn: scan the safelist; on the first match
return the sort value with a leading "-" trimmed; none models the
panic("unsafe sort parameter") reached when no safelist entry matches. -/
def sortColumnLoop (sort : String) : List String → Option String
  | [] => none
  | sv :: rest =>
    if sort = sv then some (goTrimPrefix sort "-") else sortColumnLoop sort rest

/-- Embedding of Filters.sortColumn; none models the panic on a sort value
outside the safelist. -/
def Filters.sortColumn (f : Filters) : Option String :=
  sortColumnLoop f.sort f.sortSafelist

/-- Embedding of Filters.sortDirection: "DESC" iff the sort value starts
with "-", else "ASC". -/
def Filters.sortDirection (f : Filters) : String :=
  if goHasPrefix f.sort "-" then "DESC" else "ASC"

/-! ## internal/data: error sentinels and the movies table

The relational store is modelled as an explicit list of rows. Each SQL
statement issued by a model method is embedded as a function on that list,
returning the rows it matched or affected exactly as the WHERE clause
dictates. Machine integers (int64, int32) are modelled as Int: no
operation in the embedded code comes near the overflow boundary, and the
store rejects rather than wraps an out-of-range integer. -/

/-- Embedding of the data package error values (ErrRecordNotFound,
ErrEditConflict, ErrDuplicateEmail) together with an opaque store error
carrying the message text the database driver reports. -/
inductive DataErr where
  | recordNotFound
  | editConflict
  | duplicateEmail
  | sqlError (msg : String)
deriving DecidableEq

/-- Embedding of data.Movie. CreatedAt is an opaque store-assigned
timestamp, modelled as Int. -/
structure Movie where
  id : Int
  createdAt : Int
  title : String
  year : Int
  runtime : Int
  genres : List String
  version : Int
deriving DecidableEq

/-- The movies table: a list of rows. -/
abbrev MovieDB := List Movie

/-- Point lookup by primary key, as SELECT ... WHERE id = $1 resolves it:
the first (and, with unique ids, only) row with the given id. -/
def findMovie (db : MovieDB) (id : Int) : Option Movie :=
  match db with
  | [] => none
  | r :: rest => if r.id = id then some r else findMovie rest id

/-- Embedding of the UPDATE statement in MovieModel.Update: every row
matching WHERE id = $5 AND version = $6 receives the new title, year,
runtime, genres and version = version + 1. Returns the updated table and
the number of rows affected. -/
def sqlUpdateMovie (db : MovieDB) (m : Movie) : MovieDB × Nat :=
  match db with
  | [] => ([], 0)
  | r :: rest =>
    let p := sqlUpdateMovie rest m
    if r.id = m.id ∧ r.version = m.version then
      ({ r with title := m.title, year := m.year, runtime := m.runtime,
                genres := m.genres, version := r.version + 1 } :: p.1, p.2 + 1)
    else (r :: p.1, p.2)

/-- Embedding of MovieModel.Update: run the guarded UPDATE; when it affects
zero rows the RETURNING scan sees sql.ErrNoRows, which the method maps to
ErrEditConflict. -/
def MovieModel.update (db : MovieDB) (m : Movie) : Except DataErr Unit × MovieDB :=
  let p := sqlUpdateMovie db m
  if p.2 = 0 then (Except.error DataErr.editConflict, p.1)
  else (Except.ok (), p.1)

/-- Embedding of MovieModel.Get. The second component counts store
round-trips: the id < 1 guard returns before any query is issued. A point
lookup with zero rows surfaces sql.ErrNoRows, mapped to
ErrRecordNotFound. -/
def MovieModel.get (db : MovieDB) (id : Int) : Except DataErr Movie × Nat :=
  if id < 1 then (Except.error DataErr.recordNotFound, 0)
  else
    match findMovie db id with
    | none => (Except.error DataErr.recordNotFound, 1)
    | some r => (Except.ok r, 1)

/-- Embedding of the DELETE statement in MovieModel.Delete: remove every
row matching WHERE id = $1, returning the remaining table and the number
of rows affected. -/
def sqlDeleteMovie (db : MovieDB) (id : Int) : MovieDB × Nat :=
  match db with
  | [] => ([], 0)
  | r :: rest =>
    let p := sqlDeleteMovie rest id
    if r.id = id then (p.1, p.2 + 1) else (r :: p.1, p.2)

/-- Embedding of MovieModel.Delete: the id < 1 guard returns
ErrRecordNotFound before any query; otherwise the DELETE runs and zero
affected rows are mapped to ErrRecordNotFound. The result carries the
table after the call and the store round-trip count. -/
def MovieModel.delete (db : MovieDB) (id : Int) :
    Except DataErr Unit × MovieDB × Nat :=
  if id < 1 then (Except.error DataErr.recordNotFound, db, 0)
  else
    let p := sqlDeleteMovie db id
    if p.2 = 0 then (Except.error DataErr.recordNotFound, p.1, 1)
    else (Except.ok (), p.1, 1)

/-! ## internal/data/users.go: password hashing and the users table

The bcrypt library (golang.org/x/crypto/bcrypt, an external collaborator
of this repository) is modelled symbolically as an ideal one-way function:
a well-formed hash records the cost, the salt and the password it was
derived from, and comparison succeeds exactly on that password. This is
the standard idealization of a collision-free KDF; it keeps every
behaviour the repository code depends on: generation fails on a password
over 72 bytes, comparison distinguishes mismatch from a malformed hash. -/

/-- Symbolic bcrypt hash value: either well formed (recording cost, salt
and source password) or malformed bytes. -/
inductive BcryptHash where
  | valid (cost salt : Nat) (pw : String)
  | malformed
deriving DecidableEq

/-- Errors of the symbolic bcrypt library. -/
inductive BcryptErr where
  | mismatchedHashAndPassword
  | invalidHash
  | passwordTooLong
deriving DecidableEq

/-- Symbolic bcrypt.GenerateFromPassword: fails on input longer than 72
bytes, otherwise produces a well-formed hash over the given salt. -/
def bcryptGenerateFromPassword (pw : String) (cost salt : Nat) :
    Except BcryptErr BcryptHash :=
  if goLen pw > 72 then Except.error BcryptErr.passwordTooLong
  else Except.ok (BcryptHash.valid cost salt pw)

/-- Symbolic bcrypt.CompareHashAndPassword: none means the passwords
match; a nil or malformed hash is an invalid-hash error; otherwise a
mismatch error. -/
def bcryptCompareHashAndPassword : Option BcryptHash → String → Option BcryptErr
  | none, _ => some BcryptErr.invalidHash
  | some BcryptHash.malformed, _ => some BcryptErr.invalidHash
  | some (BcryptHash.valid _ _ p), q =>
    if p = q then none else some BcryptErr.mismatchedHashAndPassword

/-- Embedding of the data.password struct: optional plaintext plus the
stored hash ([]byte, nil when absent). -/
structure Password where
  plaintext : Option String
  hash : Option BcryptHash
deriving DecidableEq

/-- Embedding of password.Set: hash the plaintext with cost 12 and store
both plaintext and hash; the salt the library draws is a parameter. -/
def Password.set (_p : Password) (plaintextPassword : String) (salt : Nat) :
    Except BcryptErr Password :=
  match bcryptGenerateFromPassword plaintextPassword 12 salt with
  | Except.error e => Except.error e
  | Except.ok h =>
    Except.ok { plaintext := some plaintextPassword, hash := some h }

/-- Embedding of password.Matches: a mismatch becomes (false, nil), any
other comparison error is returned, otherwise (true, nil). -/
def Password.matches (p : Password) (plaintextPassword : String) :
    Except BcryptErr Bool :=
  match bcryptCompareHashAndPassword p.hash plaintextPassword with
  | some BcryptErr.mismatchedHashAndPassword => Except.ok false
  | some e => Except.error e
  | none => Except.ok true

/-- Embedding of data.User. -/
structure User where
  id : Int
  createdAt : Int
  name : String
  email : String
  password : Password
  activated : Bool
  version : Int
deriving DecidableEq

/-- Modelled from the spec: data.AnonymousUser, referenced by the
authenticate middleware but declared in a users source part missing from
src. Per the spec glossary it is a non-nil sentinel user value
representing "no authenticated caller". -/
def AnonymousUser : User :=
  { id := 0, createdAt := 0, name := "", email := "",
    password := { plaintext := none, hash := none },
    activated := false, version := 0 }

/-- The users table: a list of rows. -/
abbrev UserDB := List User

/-- Modelled from the spec: the users table columns, per the persisted
schema of spec section 6 (the users migration file is not under src);
the Insert and Update statements in users.go use exactly these names. -/
def usersTableColumns : List String :=
  ["id", "created_at", "name", "email", "password_hash", "activated", "version"]

/-- The select list of the UserModel.GetByEmail query, transcribed from
the SQL string in users.go (note the second entry). -/
def getByEmailColumns : List String :=
  ["id", "created_id", "name", "email", "password_hash", "activated", "version"]

/-- A SELECT over the users table: the store rejects the query with an
undefined-column error when the select list names a column the table does
not have, and otherwise returns the rows matching the predicate. -/
def sqlSelectUsers (cols : List String) (db : UserDB) (pred : User → Bool) :
    Except DataErr UserDB :=
  if cols.all (fun c => usersTableColumns.contains c) then
    Except.ok (db.filter pred)
  else Except.error (DataErr.sqlError "column does not exist")

/-- Embedding of UserModel.GetByEmail: run the transcribed SELECT with
WHERE email = $1; a zero-row result surfaces sql.ErrNoRows, mapped to
ErrRecordNotFound; any other store error is returned as-is. -/
def UserModel.getByEmail (db : UserDB) (email : String) : Except DataErr User :=
  match sqlSelectUsers getByEmailColumns db (fun u => u.email == email) with
  | Except.error e => Except.error e
  | Except.ok [] => Except.error DataErr.recordNotFound
  | Except.ok (u :: _) => Except.ok u

/-! ## Token scopes and plaintext validation (internal/data tokens file) -/

/-- Embedding of data.ScopActivation. -/
def ScopActivation : String := "activation"

/-- Modelled from the spec: data.ScopeAuthentication, referenced by the
authenticate middleware but declared in a tokens source part missing from
src; the spec names the scope tag "authentication". -/
def ScopeAuthentication : String := "authentication"

/-- Embedding of data.ValidateTokenPlaintext: the token must be provided
and be exactly 26 bytes long. -/
def ValidateTokenPlaintext (v : Validator) (tokenPlaintext : String) : Validator :=
  (v.check (tokenPlaintext != "") "token" "must be provided").check
    (goLen tokenPlaintext == 26) "token" "must be 26 bytes long"

/-! ## cmd/api/context.go: the request-scoped user

context.WithValue stores a Go interface value. contextSetUser passes user
of static (and hence dynamic) type a pointer to data.User, while
contextGetUser type-asserts the retrieved value to the bare value type
data.User. The interface value is modelled as a sum distinguishing the
two dynamic types, and a Go type assertion succeeds only on the matching
constructor. -/

/-- A Go interface value that can sit under the user context key: either
a pointer to data.User or a data.User value. -/
inductive GoCtxValue where
  | userPointer (u : User)
  | userValue (u : User)
deriving DecidableEq

/-- Embedding of contextSetUser: context.WithValue(r.Context(),
userContextKey, user) with user a pointer to data.User. -/
def contextSetUser (_ctx : Option GoCtxValue) (user : User) : Option GoCtxValue :=
  some (GoCtxValue.userPointer user)

/-- Embedding of contextGetUser: the type assertion
r.Context().Value(userContextKey).(data.User) succeeds only on a stored
value of dynamic type data.User; none models the
panic("missing user value in request context") taken when the assertion
reports ok = false. -/
def contextGetUser (ctx : Option GoCtxValue) : Option User :=
  match ctx with
  | some (GoCtxValue.userValue u) => some u
  | _ => none

/-! ## cmd/api/middleware.go: the authenticate middleware

GetForToken lives in a users source part missing from src; the middleware
is embedded against it as an oracle parameter resolving (scope, token) to
a user or an error. The embedding returns the decision the middleware
takes plus the number of store lookups it performed. -/

/-- Decision taken by the authenticate middleware for one request. -/
inductive AuthDecision where
  | nextWith (u : User)
  | invalidToken401
  | serverError500
deriving DecidableEq

/-- Embedding of the authenticate middleware body: empty header means the
anonymous sentinel proceeds; a header that does not split into exactly
["Bearer", token] is a 401; a token failing ValidateTokenPlaintext is a
401; otherwise GetForToken(ScopeAuthentication, token) decides: not-found
is a 401, any other error a 500, success attaches the resolved user. The
Nat counts GetForToken store lookups. -/
def authenticate (getForToken : String → String → Except DataErr User)
    (authorizationHeader : String) : AuthDecision × Nat :=
  if authorizationHeader = "" then (AuthDecision.nextWith AnonymousUser, 0)
  else
    let headerParts := goSplitSpace authorizationHeader
    if headerParts.length ≠ 2 ∨ headerParts.head? ≠ some "Bearer" then
      (AuthDecision.invalidToken401, 0)
    else
      let token := headerParts.getD 1 ""
      if (ValidateTokenPlaintext Validator.new token).valid = false then
        (AuthDecision.invalidToken401, 0)
      else
        match getForToken ScopeAuthentication token with
        | Except.error DataErr.recordNotFound => (AuthDecision.invalidToken401, 1)
        | Except.error _ => (AuthDecision.serverError500, 1)
        | Except.ok u => (AuthDecision.nextWith u, 1)

/-! ## cmd/api/users.go: registerUserHandler

The handler is embedded as the sequence of decisions it takes after the
request body has been decoded. Permissions.AddForUser lives in a
permissions source part missing from src, and the store outcomes of
Insert, AddForUser and Tokens.New are supplied as oracle results; the
outcome of data.ValidateUser (whose email regular expression belongs to
the external collaborator boundary) is supplied as a boolean. The effect
list records, in program order, every externally visible store or
background action the handler performed. -/

/-- Decoded registration request body. -/
structure RegisterInput where
  name : String
  email : String
  password : String
deriving DecidableEq

/-- Externally visible actions of registerUserHandler, in program order. -/
inductive RegisterEffect where
  | userInserted (email : String)
  | permissionGranted (code : String)
  | tokenCreated (scope : String) (ttlHours : Nat)
  | emailDispatched (recipient : String)
deriving DecidableEq

/-- Store outcomes the handler observes, one per operation it may issue. -/
structure RegisterOracles where
  insertResult : Except DataErr Unit
  addForUserResult : Except DataErr Unit
  tokenNewResult : Except DataErr Unit

/-- HTTP status the handler responds with. -/
inductive RegisterStatus where
  | s202 | s400 | s422 | s500
deriving DecidableEq

/-- Embedding of registerUserHandler: decode (none models a readJSON
failure), hash the password, validate, Insert the user (duplicate email
becomes a 422 validation failure), grant "movies:read" via
Permissions.AddForUser, create a 3-day (72-hour) activation token via
Tokens.New, dispatch the welcome email in the background, respond 202. -/
def registerUserHandler (ork : RegisterOracles) (input : Option RegisterInput)
    (salt : Nat) (validOk : Bool) : RegisterStatus × List RegisterEffect :=
  match input with
  | none => (RegisterStatus.s400, [])
  | some inp =>
    match Password.set { plaintext := none, hash := none } inp.password salt with
    | Except.error _ => (RegisterStatus.s500, [])
    | Except.ok _ =>
      if validOk = false then (RegisterStatus.s422, [])
      else
        match ork.insertResult with
        | Except.error DataErr.duplicateEmail => (RegisterStatus.s422, [])
        | Except.error _ => (RegisterStatus.s500, [])
        | Except.ok _ =>
          let eff1 := [RegisterEffect.userInserted inp.email]
          match ork.addForUserResult with
          | Except.error _ => (RegisterStatus.s500, eff1)
          | Except.ok _ =>
            let eff2 := eff1 ++ [RegisterEffect.permissionGranted "movies:read"]
            match ork.tokenNewResult with
            | Except.error _ => (RegisterStatus.s500, eff2)
            | Except.ok _ =>
              (RegisterStatus.s202,
                eff2 ++ [RegisterEffect.tokenCreated ScopActivation 72,
                         RegisterEffect.emailDispatched inp.email])

/-! ## cmd/api/routes.go: the composed middleware chain

Each middleware from middleware.go is embedded as a handler transformer
over a small request/state semantics. A handler either returns a response
status or panics; panics propagate outward through every wrapper that
does not recover them, exactly as in Go. The state records, besides the
expvar counters and the Connection header recoverPanic sets, the order in
which the wrappers began handling the request, so the composition order
of routes.go line 72 is observable. -/

/-- The middleware wrappers and the router, as trace labels. -/
inductive MwLabel where
  | metrics | recoverPanic | enableCORS | rateLimit | authenticate | router
deriving DecidableEq

/-- Observable per-request state threaded through the chain. -/
structure ChainState where
  trace : List MwLabel
  requestsReceived : Nat
  responsesSent : Nat
  connectionClose : Bool
deriving DecidableEq

/-- Outcome of running a handler: a response with a status code, or a
panic escaping it. -/
inductive HandlerOutcome where
  | response (status : Nat)
  | panicked (msg : String)
deriving DecidableEq

/-- A handler: request state to outcome and updated state. The request
itself is fixed per run, so handlers here are state transformers. -/
def GHandler : Type := ChainState → HandlerOutcome × ChainState

/-- The request fields the chain inspects. -/
structure ChainRequest where
  authorizationHeader : String
  origin : String
  isOptionsMethod : Bool
  accessControlRequestMethod : String
deriving DecidableEq

/-- Configuration the chain reads: CORS trusted origins and the limiter
settings, with the token-bucket Allow outcome for this request supplied
as a boolean. -/
structure ChainConfig where
  trustedOrigins : List String
  limiterEnabled : Bool
  limiterAllow : Bool

/-- Embedding of the metrics middleware: count the request, run the inner
handler, and on a returned response count the response; a panic
propagates out before the response counters are reached. -/
def metricsMW (next : GHandler) : GHandler := fun st =>
  let st1 := { st with trace := st.trace ++ [MwLabel.metrics],
                       requestsReceived := st.requestsReceived + 1 }
  match next st1 with
  | (HandlerOutcome.response s, st2) =>
    (HandlerOutcome.response s, { st2 with responsesSent := st2.responsesSent + 1 })
  | (HandlerOutcome.panicked m, st2) => (HandlerOutcome.panicked m, st2)

/-- Embedding of the recoverPanic middleware: a panic from the inner
handler is recovered, the Connection header set to close, and a 500
response emitted. -/
def recoverPanicMW (next : GHandler) : GHandler := fun st =>
  let st1 := { st with trace := st.trace ++ [MwLabel.recoverPanic] }
  match next st1 with
  | (HandlerOutcome.panicked _, st2) =>
    (HandlerOutcome.response 500, { st2 with connectionClose := true })
  | (HandlerOutcome.response s, st2) => (HandlerOutcome.response s, st2)

/-- Embedding of the enableCORS middleware: a preflight request (OPTIONS
with Access-Control-Request-Method set) from a trusted origin is answered
200 without reaching the inner handler; otherwise the chain continues. -/
def enableCORSMW (cfg : ChainConfig) (req : ChainRequest) (next : GHandler) :
    GHandler := fun st =>
  let st1 := { st with trace := st.trace ++ [MwLabel.enableCORS] }
  if req.origin ≠ "" ∧ req.origin ∈ cfg.trustedOrigins ∧
      req.isOptionsMethod ∧ req.accessControlRequestMethod ≠ "" then
    (HandlerOutcome.response 200, st1)
  else next st1

/-- Embedding of the rateLimit middleware: when limiting is enabled and
the token bucket disallows the request, respond 429; otherwise
continue. -/
def rateLimitMW (cfg : ChainConfig) (next : GHandler) : GHandler := fun st =>
  let st1 := { st with trace := st.trace ++ [MwLabel.rateLimit] }
  if cfg.limiterEnabled ∧ cfg.limiterAllow = false then
    (HandlerOutcome.response 429, st1)
  else next st1

/-- Embedding of the authenticate middleware as a chain element: its body
decides per the authenticate function; a 401 or 500 decision responds
without reaching the inner handler. -/
def authenticateMW (getForToken : String → String → Except DataErr User)
    (req : ChainRequest) (next : GHandler) : GHandler := fun st =>
  let st1 := { st with trace := st.trace ++ [MwLabel.authenticate] }
  match (authenticate getForToken req.authorizationHeader).1 with
  | AuthDecision.nextWith _ => next st1
  | AuthDecision.invalidToken401 => (HandlerOutcome.response 401, st1)
  | AuthDecision.serverError500 => (HandlerOutcome.response 500, st1)

/-- Embedding of the routes.go composition:
metrics(recoverPanic(enableCORS(rateLimit(authenticate(router))))). -/
def routesChain (cfg : ChainConfig) (getForToken : String → String → Except DataErr User)
    (req : ChainRequest) (router : GHandler) : GHandler :=
  metricsMW (recoverPanicMW (enableCORSMW cfg req
    (rateLimitMW cfg (authenticateMW getForToken req router))))

/-! ## Lemmas about the Validator -/

/-- Appending entries on the right never disturbs an existing binding. -/
theorem findMsg_append_of_some {l : List (String × String)} {k : String} {m : String}
    (h : findMsg l k = some m) (l2 : List (String × String)) :
    findMsg (l ++ l2) k = some m := by
  induction l with
  | nil => simp [findMsg] at h
  | cons hd tl ih =>
    obtain ⟨k2, msg⟩ := hd
    by_cases hk : k2 = k
    · simp [findMsg, hk] at h ⊢
      exact h
    · simp [findMsg, hk] at h ⊢
      exact ih h

/-- When a key is absent, lookup over an appended list continues on the
right part. -/
theorem findMsg_append_of_none {l : List (String × String)} {k : String}
    (h : findMsg l k = none) (l2 : List (String × String)) :
    findMsg (l ++ l2) k = findMsg l2 k := by
  induction l with
  | nil => simp
  | cons hd tl ih =>
    obtain ⟨k2, msg⟩ := hd
    by_cases hk : k2 = k
    · simp [findMsg, hk] at h
    · simp [findMsg, hk] at h ⊢
      exact ih h

/-- AddError never disturbs an existing binding. -/
theorem findMsg_addError_of_some {v : Validator} {k : String} {m : String}
    (h : findMsg v.errors k = some m) (key message : String) :
    findMsg (v.addError key message).errors k = some m := by
  unfold Validator.addError
  cases hfind : findMsg v.errors key with
  | some m2 => exact h
  | none => exact findMsg_append_of_some h _

/-- Check never disturbs an existing binding. -/
theorem findMsg_check_of_some {v : Validator} {k : String} {m : String}
    (h : findMsg v.errors k = some m) (ok : Bool) (key message : String) :
    findMsg (v.check ok key message).errors k = some m := by
  unfold Validator.check
  cases ok with
  | true => exact h
  | false => exact findMsg_addError_of_some h key message

/-- No sequence of further Check calls disturbs an existing binding. -/
theorem findMsg_applyChecks_of_some {v : Validator} {k : String} {m : String}
    (h : findMsg v.errors k = some m) (ops : List (Bool × String × String)) :
    findMsg (v.applyChecks ops).errors k = some m := by
  induction ops generalizing v with
  | nil => exact h
  | cons op rest ih =>
    obtain ⟨b, key, message⟩ := op
    exact ih (findMsg_check_of_some h b key message)

/-- A Check on a false condition against a fresh key records its
message. -/
theorem findMsg_check_false_fresh {v : Validator} {k : String}
    (h : findMsg v.errors k = none) (m : String) :
    findMsg (v.check false k m).errors k = some m := by
  unfold Validator.check Validator.addError
  rw [h]
  show findMsg (v.errors ++ [(k, m)]) k = some m
  rw [findMsg_append_of_none h [(k, m)]]
  simp [findMsg]

/-- Claim C6: the Validator keeps at most one error message per field key
with first-write-wins semantics: against a key with no existing error,
Check(false, k, m1) records m1 and any later sequence of Check calls,
including Check(false, k, m2), leaves m1 (not m2) under k; Check with a
true condition records nothing; and Valid() returns true exactly when no
error has been recorded. -/
theorem validator_first_write_wins (v : Validator) (k m1 m2 : String)
    (ops : List (Bool × String × String))
    (hfresh : findMsg v.errors k = none) :
    findMsg ((((v.check false k m1).check false k m2).applyChecks ops).errors) k = some m1
    ∧ (∀ key m : String, v.check true key m = v)
    ∧ (∀ w : Validator, w.valid = true ↔ w.errors = []) := by
  refine ⟨?_, ?_, ?_⟩
  · have h1 : findMsg (v.check false k m1).errors k = some m1 :=
      findMsg_check_false_fresh hfresh m1
    have h2 : findMsg ((v.check false k m1).check false k m2).errors k = some m1 :=
      findMsg_check_of_some h1 false k m2
    exact findMsg_applyChecks_of_some h2 ops
  · intro key m
    rfl
  · intro w
    cases w with
    | mk errs =>
      cases errs with
      | nil => simp [Validator.valid]
      | cons e rest => simp [Validator.valid]

/-- Witness for C6 at concrete inputs: a second Check on the same key does
not replace the first message, even after further checks. -/
theorem validator_first_write_wins_witness :
    findMsg ((((Validator.new.check false "k" "msg").check false "k" "other").applyChecks
      [(false, "k", "third"), (true, "k", "fourth")]).errors) "k" = some "msg" :=
  (validator_first_write_wins Validator.new "k" "msg" "other"
    [(false, "k", "third"), (true, "k", "fourth")] (by decide)).1

/-! ## Lemmas about the sort safelist -/

/-- A sort value outside the safelist makes the loop reach the panic. -/
theorem sortColumnLoop_not_mem {sort : String} {l : List String}
    (h : sort ∉ l) : sortColumnLoop sort l = none := by
  induction l with
  | nil => rfl
  | cons sv rest ih =>
    have hne : sort ≠ sv := fun he => h (he ▸ List.mem_cons_self sv rest)
    have hrest : sort ∉ rest := fun hm => h (List.mem_cons_of_mem sv hm)
    simp [sortColumnLoop, hne, ih hrest]

/-- A sort value in the safelist makes the loop return its trimmed
form. -/
theorem sortColumnLoop_mem {sort : String} {l : List String}
    (h : sort ∈ l) : sortColumnLoop sort l = some (goTrimPrefix sort "-") := by
  induction l with
  | nil => cases h
  | cons sv rest ih =>
    by_cases he : sort = sv
    · simp [sortColumnLoop, he]
    · have hm : sort ∈ rest := by
        cases h with
        | head => exact absurd rfl he
        | tail _ hmem => exact hmem
      simp [sortColumnLoop, he, ih hm]

/-- Claim C5: a Sort value not in the SortSafelist makes sortColumn panic
before any query can see it; a safelisted Sort value yields the value with
the leading "-" removed, and sortDirection is "DESC" exactly when the Sort
value has a leading "-" and "ASC" otherwise. -/
theorem sort_safelist_contract (f : Filters) :
    (f.sort ∉ f.sortSafelist → f.sortColumn = none)
    ∧ (f.sort ∈ f.sortSafelist →
        f.sortColumn = some (if goHasPrefix f.sort "-" then
            String.mk (f.sort.data.drop 1) else f.sort)
        ∧ (f.sortDirection = "DESC" ↔ goHasPrefix f.sort "-" = true)
        ∧ (f.sortDirection = "ASC" ↔ goHasPrefix f.sort "-" = false)) := by
  refine ⟨fun h => sortColumnLoop_not_mem h, fun h => ⟨?_, ?_, ?_⟩⟩
  · rw [Filters.sortColumn, sortColumnLoop_mem h]
    have hlen : ("-" : String).data.length = 1 := by decide
    unfold goTrimPrefix
    rw [hlen]
  · unfold Filters.sortDirection
    cases hp : goHasPrefix f.sort "-" with
    | true => simp
    | false => simp
  · unfold Filters.sortDirection
    cases hp : goHasPrefix f.sort "-" with
    | true => simp
    | false => simp

/-- Witness for C5 at concrete inputs: the safelisted value "-year" is
trimmed to "year" with direction "DESC". -/
theorem sort_safelist_contract_witness :
    (Filters.mk 1 20 "-year" ["id", "title", "year", "-id", "-title", "-year"]).sortColumn
      = some (if goHasPrefix "-year" "-" then String.mk ("-year".data.drop 1) else "-year")
    ∧ ((Filters.mk 1 20 "-year" ["id", "title", "year", "-id", "-title", "-year"]).sortDirection
        = "DESC" ↔ goHasPrefix "-year" "-" = true) := by
  have h := (sort_safelist_contract
    (Filters.mk 1 20 "-year" ["id", "title", "year", "-id", "-title", "-year"])).2
    (by decide)
  exact ⟨h.1, h.2.1⟩

/-! ## Lemmas about MovieModel.Get and MovieModel.Delete -/

/-- Claim C4: for every id below 1, Get and Delete return NotFound without
a store round-trip; for id at least 1, Get performs one round-trip and
returns NotFound exactly when the point lookup yields zero rows (and the
row itself otherwise), and Delete performs one round-trip and returns
NotFound exactly when the DELETE affects zero rows. -/
theorem movie_get_delete_contract (db : MovieDB) (id : Int) :
    (id < 1 →
        MovieModel.get db id = (Except.error DataErr.recordNotFound, 0)
        ∧ MovieModel.delete db id = (Except.error DataErr.recordNotFound, db, 0))
    ∧ (1 ≤ id →
        (MovieModel.get db id).2 = 1
        ∧ ((MovieModel.get db id).1 = Except.error DataErr.recordNotFound
            ↔ findMovie db id = none)
        ∧ (∀ r, findMovie db id = some r → (MovieModel.get db id).1 = Except.ok r)
        ∧ (MovieModel.delete db id).2.2 = 1
        ∧ ((MovieModel.delete db id).1 = Except.error DataErr.recordNotFound
            ↔ (sqlDeleteMovie db id).2 = 0)) := by
  constructor
  · intro hlt
    exact ⟨by simp [MovieModel.get, hlt], by simp [MovieModel.delete, hlt]⟩
  · intro hge
    have hlt : ¬ id < 1 := by omega
    refine ⟨?_, ?_, ?_, ?_, ?_⟩
    · unfold MovieModel.get
      rw [if_neg hlt]
      cases findMovie db id <;> rfl
    · unfold MovieModel.get
      rw [if_neg hlt]
      cases findMovie db id <;> simp
    · intro r hr
      unfold MovieModel.get
      rw [if_neg hlt, hr]
    · unfold MovieModel.delete
      rw [if_neg hlt]
      by_cases h0 : (sqlDeleteMovie db id).2 = 0 <;> simp [h0]
    · unfold MovieModel.delete
      rw [if_neg hlt]
      by_cases h0 : (sqlDeleteMovie db id).2 = 0 <;> simp [h0]

/-- Witness for C4 at concrete inputs: id 0 short-circuits to NotFound with
zero round-trips, and a present id is found in one round-trip. -/
theorem movie_get_delete_contract_witness :
    MovieModel.get [Movie.mk 1 0 "Casablanca" 1942 102 ["drama"] 1] 0
      = (Except.error DataErr.recordNotFound, 0)
    ∧ (MovieModel.get [Movie.mk 1 0 "Casablanca" 1942 102 ["drama"] 1] 1).1
      = Except.ok (Movie.mk 1 0 "Casablanca" 1942 102 ["drama"] 1) := by
  constructor
  · exact ((movie_get_delete_contract
      [Movie.mk 1 0 "Casablanca" 1942 102 ["drama"] 1] 0).1 (by decide)).1
  · exact ((movie_get_delete_contract
      [Movie.mk 1 0 "Casablanca" 1942 102 ["drama"] 1] 1).2 (by decide)).2.2.1
      (Movie.mk 1 0 "Casablanca" 1942 102 ["drama"] 1) (by decide)

/-! ## Lemmas about the optimistic UPDATE -/

/-- Rows whose id differs from the updated id survive the UPDATE
verbatim. -/
theorem sqlUpdateMovie_keeps_other_ids {db : MovieDB} {m : Movie} {r : Movie}
    (hr : r ∈ db) (hne : r.id ≠ m.id) : r ∈ (sqlUpdateMovie db m).1 := by
  induction db with
  | nil => cases hr
  | cons a rest ih =>
    by_cases hm : a.id = m.id ∧ a.version = m.version
    · simp only [sqlUpdateMovie, if_pos hm]
      cases hr with
      | head => exact absurd hm.1 hne
      | tail _ hmem => exact List.mem_cons_of_mem _ (ih hmem)
    · simp only [sqlUpdateMovie, if_neg hm]
      cases hr with
      | head => exact List.mem_cons_self _ _
      | tail _ hmem => exact List.mem_cons_of_mem _ (ih hmem)

/-- When no row matches the (id, version) pair the UPDATE affects zero
rows and leaves the table unchanged. -/
theorem sqlUpdateMovie_no_match {db : MovieDB} {m : Movie}
    (h : ∀ r ∈ db, ¬(r.id = m.id ∧ r.version = m.version)) :
    sqlUpdateMovie db m = (db, 0) := by
  induction db with
  | nil => rfl
  | cons a rest ih =>
    have ha : ¬(a.id = m.id ∧ a.version = m.version) :=
      h a (List.mem_cons_self a rest)
    have hrest : ∀ r ∈ rest, ¬(r.id = m.id ∧ r.version = m.version) :=
      fun r hr => h r (List.mem_cons_of_mem a hr)
    simp only [sqlUpdateMovie, if_neg ha, ih hrest]

/-- When a row carries the expected (id, version) pair and ids are unique,
the UPDATE affects that row: it receives the supplied fields and version
plus one, it remains the row found under the id, and at least one row is
affected. -/
theorem sqlUpdateMovie_match {db : MovieDB} {m : Movie} {r : Movie}
    (hnodup : (db.map Movie.id).Nodup) (hr : r ∈ db)
    (hid : r.id = m.id) (hver : r.version = m.version) :
    findMovie (sqlUpdateMovie db m).1 m.id
      = some { id := m.id, createdAt := r.createdAt, title := m.title,
               year := m.year, runtime := m.runtime, genres := m.genres,
               version := m.version + 1 }
    ∧ (sqlUpdateMovie db m).2 ≠ 0 := by
  induction db with
  | nil => cases hr
  | cons a rest ih =>
    have hnodup2 : (rest.map Movie.id).Nodup := (List.nodup_cons.mp hnodup).2
    have hnotin : a.id ∉ rest.map Movie.id := (List.nodup_cons.mp hnodup).1
    cases hr with
    | head =>
      have hm : r.id = m.id ∧ r.version = m.version := ⟨hid, hver⟩
      simp only [sqlUpdateMovie, if_pos hm]
      refine ⟨?_, by simp⟩
      simp [findMovie, hid, hver]
    | tail _ hmem =>
      have hane : a.id ≠ m.id := by
        intro he
        exact hnotin (he ▸ hid ▸ List.mem_map_of_mem Movie.id hmem)
      have hm : ¬(a.id = m.id ∧ a.version = m.version) := fun hc => hane hc.1
      obtain ⟨ih1, ih2⟩ := ih hnodup2 hmem
      simp only [sqlUpdateMovie, if_neg hm]
      refine ⟨?_, ih2⟩
      simp only [findMovie, if_neg hane]
      exact ih1

/-- Claim C3: against a movies table with unique ids, if a row still holds
the (id, version) pair the caller read, Update succeeds and the stored
row under that id carries the supplied title, year, runtime and genres
with version incremented exactly once to V + 1, all other rows surviving
unchanged; if no row matches the pair (concurrent modification or
deletion), Update returns EditConflict and writes nothing. -/
theorem movie_update_optimistic (db : MovieDB) (m : Movie)
    (hnodup : (db.map Movie.id).Nodup) :
    (∀ r ∈ db, r.id = m.id → r.version = m.version →
        (MovieModel.update db m).1 = Except.ok ()
        ∧ findMovie (MovieModel.update db m).2 m.id
            = some { id := m.id, createdAt := r.createdAt, title := m.title,
                     year := m.year, runtime := m.runtime, genres := m.genres,
                     version := m.version + 1 }
        ∧ (∀ r2 ∈ db, r2.id ≠ m.id → r2 ∈ (MovieModel.update db m).2))
    ∧ ((∀ r ∈ db, ¬(r.id = m.id ∧ r.version = m.version)) →
        MovieModel.update db m = (Except.error DataErr.editConflict, db)) := by
  constructor
  · intro r hr hid hver
    obtain ⟨hfind, hcount⟩ := sqlUpdateMovie_match hnodup hr hid hver
    refine ⟨?_, ?_, ?_⟩
    · unfold MovieModel.update
      rw [if_neg hcount]
    · unfold MovieModel.update
      rw [if_neg hcount]
      exact hfind
    · intro r2 hr2 hne
      unfold MovieModel.update
      rw [if_neg hcount]
      exact sqlUpdateMovie_keeps_other_ids hr2 hne
  · intro h
    unfold MovieModel.update
    rw [sqlUpdateMovie_no_match h]
    rfl

/-- Witness for C3 at concrete inputs: updating the only row at its
current version succeeds and bumps the version to 2; updating at a stale
version returns EditConflict and leaves the table unchanged. -/
theorem movie_update_optimistic_witness :
    (MovieModel.update [Movie.mk 1 7 "Old" 1990 100 ["drama"] 1]
        (Movie.mk 1 0 "New" 1991 101 ["sci-fi"] 1)).1 = Except.ok ()
    ∧ findMovie (MovieModel.update [Movie.mk 1 7 "Old" 1990 100 ["drama"] 1]
        (Movie.mk 1 0 "New" 1991 101 ["sci-fi"] 1)).2 1
      = some (Movie.mk 1 7 "New" 1991 101 ["sci-fi"] 2)
    ∧ MovieModel.update [Movie.mk 1 7 "New" 1991 101 ["sci-fi"] 2]
        (Movie.mk 1 0 "Stale" 1992 99 ["noir"] 1)
      = (Except.error DataErr.editConflict, [Movie.mk 1 7 "New" 1991 101 ["sci-fi"] 2]) := by
  have hsucc := (movie_update_optimistic [Movie.mk 1 7 "Old" 1990 100 ["drama"] 1]
    (Movie.mk 1 0 "New" 1991 101 ["sci-fi"] 1) (by decide)).1
    (Movie.mk 1 7 "Old" 1990 100 ["drama"] 1) (by decide) (by decide) (by decide)
  have hconf := (movie_update_optimistic [Movie.mk 1 7 "New" 1991 101 ["sci-fi"] 2]
    (Movie.mk 1 0 "Stale" 1992 99 ["noir"] 1) (by decide)).2 (by decide)
  exact ⟨hsucc.1, hsucc.2.1, hconf⟩

/-! ## Password round-trip and tri-state comparison -/

/-- Claim C7: a plaintext accepted by Set matches afterwards with
(true, nil); a plaintext that does not match the stored hash yields
(false, nil), a non-match not being an error; and Matches returns an
error only when the stored hash itself is missing or malformed. -/
theorem password_match_tristate (p0 : Password) (p : String) (salt : Nat)
    (pwd : Password) (hset : p0.set p salt = Except.ok pwd) :
    pwd.matches p = Except.ok true
    ∧ (∀ q, q ≠ p → pwd.matches q = Except.ok false)
    ∧ (∀ (w : Password) (q : String) (e : BcryptErr),
        w.matches q = Except.error e →
        w.hash = none ∨ w.hash = some BcryptHash.malformed) := by
  have hpwd : pwd = { plaintext := some p, hash := some (BcryptHash.valid 12 salt p) } := by
    unfold Password.set bcryptGenerateFromPassword at hset
    by_cases hlen : goLen p > 72
    · rw [if_pos hlen] at hset
      cases hset
    · rw [if_neg hlen] at hset
      cases hset
      rfl
  subst hpwd
  refine ⟨?_, ?_, ?_⟩
  · simp [Password.matches, bcryptCompareHashAndPassword]
  · intro q hq
    have hne : p ≠ q := fun he => hq he.symm
    simp [Password.matches, bcryptCompareHashAndPassword, hne]
  · intro w q e herr
    cases hh : w.hash with
    | none => exact Or.inl rfl
    | some h =>
      cases h with
      | malformed => exact Or.inr rfl
      | valid c s pw =>
        exfalso
        unfold Password.matches at herr
        rw [hh] at herr
        by_cases hpq : pw = q
        · simp [bcryptCompareHashAndPassword, hpq] at herr
        · simp [bcryptCompareHashAndPassword, hpq] at herr

/-- Witness for C7 at concrete inputs: after Set("pw12345678"), Matches on
the same plaintext is (true, nil) and on "wrong" is (false, nil). -/
theorem password_match_tristate_witness :
    (Password.mk (some "pw12345678") (some (BcryptHash.valid 12 0 "pw12345678"))).matches
      "pw12345678" = Except.ok true
    ∧ (Password.mk (some "pw12345678") (some (BcryptHash.valid 12 0 "pw12345678"))).matches
      "wrong" = Except.ok false := by
  have h := password_match_tristate (Password.mk none none) "pw12345678" 0
    (Password.mk (some "pw12345678") (some (BcryptHash.valid 12 0 "pw12345678")))
    rfl
  exact ⟨h.1, h.2.1 "wrong" (by decide)⟩

/-! ## The request-context user accessor -/

/-- Claim C2 evaluated on the code: contextGetUser panics (none) even for
a request in which contextSetUser just stored a user, because the stored
interface value has dynamic type pointer-to-User while the accessor
asserts the bare value type; the set call did store the user, and the
accessor also panics when nothing was stored. -/
theorem contextGetUser_always_panics :
    contextSetUser none AnonymousUser = some (GoCtxValue.userPointer AnonymousUser)
    ∧ contextGetUser (contextSetUser none AnonymousUser) = none
    ∧ contextGetUser none = none := by
  exact ⟨rfl, rfl, rfl⟩

/-! ## UserModel.GetByEmail -/

/-- Claim C8 evaluated on the code: with a user whose email is the one
looked up present in the users table, GetByEmail still returns a store
error, because its select list names the column created_id, which the
users table does not have; neither the user record nor NotFound can ever
be returned. -/
theorem getByEmail_always_store_error :
    (User.mk 1 0 "Ann" "ann@x.com"
        (Password.mk none (some (BcryptHash.valid 12 0 "pa55word12"))) false 1).email
      = "ann@x.com"
    ∧ UserModel.getByEmail
        [User.mk 1 0 "Ann" "ann@x.com"
          (Password.mk none (some (BcryptHash.valid 12 0 "pa55word12"))) false 1]
        "ann@x.com"
      = Except.error (DataErr.sqlError "column does not exist")
    ∧ getByEmailColumns.contains "created_id" = true
    ∧ usersTableColumns.contains "created_id" = false := by
  exact ⟨rfl, rfl, by decide, by decide⟩

/-! ## The authenticate middleware -/

/-- The token plaintext validation passes exactly when the token is
nonempty and 26 bytes long. -/
theorem validateTokenPlaintext_valid (t : String) :
    (ValidateTokenPlaintext Validator.new t).valid = true ↔ (t ≠ "" ∧ goLen t = 26) := by
  unfold ValidateTokenPlaintext
  by_cases h1 : t = ""
  · have hb1 : (t != "") = false := by simp [h1]
    by_cases h2 : goLen t = 26
    · have hb2 : (goLen t == 26) = true := by simp [h2]
      rw [hb1, hb2]
      simp [Validator.check, Validator.addError, Validator.new, findMsg, Validator.valid, h1]
    · have hb2 : (goLen t == 26) = false := by simp [h2]
      rw [hb1, hb2]
      simp [Validator.check, Validator.addError, Validator.new, findMsg, Validator.valid, h1]
  · have hb1 : (t != "") = true := by simp [h1]
    by_cases h2 : goLen t = 26
    · have hb2 : (goLen t == 26) = true := by simp [h2]
      rw [hb1, hb2]
      simp [Validator.check, Validator.addError, Validator.new, findMsg, Validator.valid, h1, h2]
    · have hb2 : (goLen t == 26) = false := by simp [h2]
      rw [hb1, hb2]
      simp [Validator.check, Validator.addError, Validator.new, findMsg, Validator.valid, h1, h2]

/-- Claim C9: the authenticate middleware is exhaustive over header
shapes: an absent Authorization header attaches the non-nil anonymous
sentinel and continues without a store lookup; a header that is not
exactly two space-separated parts with first part "Bearer", or whose
token fails the 26-byte plaintext validation, responds 401 without any
store lookup; a well-shaped token that GetForToken cannot resolve under
the authentication scope responds 401; and a resolvable token attaches
the resolved user. -/
theorem authenticate_header_shapes
    (getForToken : String → String → Except DataErr User) (hdr : String) :
    (hdr = "" → authenticate getForToken hdr = (AuthDecision.nextWith AnonymousUser, 0))
    ∧ (hdr ≠ "" →
        ((goSplitSpace hdr).length ≠ 2 ∨ (goSplitSpace hdr).head? ≠ some "Bearer" →
            authenticate getForToken hdr = (AuthDecision.invalidToken401, 0))
        ∧ (∀ token, goSplitSpace hdr = ["Bearer", token] →
            (¬(token ≠ "" ∧ goLen token = 26) →
                authenticate getForToken hdr = (AuthDecision.invalidToken401, 0))
            ∧ ((token ≠ "" ∧ goLen token = 26) →
                (getForToken ScopeAuthentication token = Except.error DataErr.recordNotFound →
                    authenticate getForToken hdr = (AuthDecision.invalidToken401, 1))
                ∧ (∀ u, getForToken ScopeAuthentication token = Except.ok u →
                    authenticate getForToken hdr = (AuthDecision.nextWith u, 1))))) := by
  constructor
  · intro h
    simp [authenticate, h]
  · intro h
    constructor
    · intro hshape
      unfold authenticate
      rw [if_neg h, if_pos hshape]
    · intro token htok
      have hshape : ¬((goSplitSpace hdr).length ≠ 2 ∨
          (goSplitSpace hdr).head? ≠ some "Bearer") := by
        rw [htok]
        simp
      have hget : (goSplitSpace hdr).getD 1 "" = token := by
        rw [htok]
        rfl
      constructor
      · intro hbad
        have hval : (ValidateTokenPlaintext Validator.new token).valid = false := by
          cases hv : (ValidateTokenPlaintext Validator.new token).valid with
          | false => rfl
          | true => exact absurd ((validateTokenPlaintext_valid token).mp hv) hbad
        unfold authenticate
        rw [if_neg h, if_neg hshape, hget, if_pos (by rw [hval])]
      · intro hgood
        have hval : (ValidateTokenPlaintext Validator.new token).valid = true :=
          (validateTokenPlaintext_valid token).mpr hgood
        have hvalneg : ¬((ValidateTokenPlaintext Validator.new token).valid = false) := by
          rw [hval]
          simp
        constructor
        · intro hnf
          unfold authenticate
          rw [if_neg h, if_neg hshape, hget, if_neg hvalneg, hnf]
        · intro u hu
          unfold authenticate
          rw [if_neg h, if_neg hshape, hget, if_neg hvalneg, hu]

/-- Witness for C9 at concrete inputs: an empty header proceeds as the
anonymous sentinel; a malformed header and a short token are rejected with
no lookup; a well-shaped unresolvable token is rejected after one lookup;
a resolvable token attaches the resolved user. -/
theorem authenticate_header_shapes_witness :
    authenticate (fun _ _ => Except.error DataErr.recordNotFound) ""
      = (AuthDecision.nextWith AnonymousUser, 0)
    ∧ authenticate (fun _ _ => Except.error DataErr.recordNotFound) "Basic abc"
      = (AuthDecision.invalidToken401, 0)
    ∧ authenticate (fun _ _ => Except.error DataErr.recordNotFound) "Bearer short"
      = (AuthDecision.invalidToken401, 0)
    ∧ authenticate (fun _ _ => Except.error DataErr.recordNotFound)
        "Bearer ABCDEFGHIJKLMNOPQRSTUVWXYZ"
      = (AuthDecision.invalidToken401, 1)
    ∧ authenticate (fun _ _ => Except.ok AnonymousUser)
        "Bearer ABCDEFGHIJKLMNOPQRSTUVWXYZ"
      = (AuthDecision.nextWith AnonymousUser, 1) := by
  refine ⟨?_, ?_, ?_, ?_, ?_⟩
  · exact (authenticate_header_shapes (fun _ _ => Except.error DataErr.recordNotFound)
      "").1 rfl
  · exact ((authenticate_header_shapes (fun _ _ => Except.error DataErr.recordNotFound)
      "Basic abc").2 (by decide)).1 (by decide)
  · exact (((authenticate_header_shapes (fun _ _ => Except.error DataErr.recordNotFound)
      "Bearer short").2 (by decide)).2 "short" (by decide)).1 (by decide)
  · exact ((((authenticate_header_shapes (fun _ _ => Except.error DataErr.recordNotFound)
      "Bearer ABCDEFGHIJKLMNOPQRSTUVWXYZ").2 (by decide)).2 "ABCDEFGHIJKLMNOPQRSTUVWXYZ"
      (by decide)).2 (by decide)).1 rfl
  · exact ((((authenticate_header_shapes (fun _ _ => Except.ok AnonymousUser)
      "Bearer ABCDEFGHIJKLMNOPQRSTUVWXYZ").2 (by decide)).2 "ABCDEFGHIJKLMNOPQRSTUVWXYZ"
      (by decide)).2 (by decide)).2 AnonymousUser rfl

/-! ## registerUserHandler ordering -/

/-- Claim C10: when the user insert succeeds, the handler grants the new
user the "movies:read" permission via Permissions.AddForUser before
creating the 3-day (72-hour) activation token and responding 202; when
the permission grant fails the response is 500 with no activation token
created and no email dispatched, even though the user record has already
been inserted. -/
theorem register_grants_permission_before_token (ork : RegisterOracles)
    (inp : RegisterInput) (salt : Nat)
    (hlen : goLen inp.password ≤ 72)
    (hins : ork.insertResult = Except.ok ()) :
    (ork.addForUserResult = Except.ok () → ork.tokenNewResult = Except.ok () →
        registerUserHandler ork (some inp) salt true
          = (RegisterStatus.s202,
             [RegisterEffect.userInserted inp.email,
              RegisterEffect.permissionGranted "movies:read",
              RegisterEffect.tokenCreated ScopActivation 72,
              RegisterEffect.emailDispatched inp.email]))
    ∧ (∀ e, ork.addForUserResult = Except.error e →
        registerUserHandler ork (some inp) salt true
          = (RegisterStatus.s500, [RegisterEffect.userInserted inp.email])) := by
  have hnot : ¬ goLen inp.password > 72 := by omega
  constructor
  · intro hperm htok
    unfold registerUserHandler Password.set bcryptGenerateFromPassword
    simp only [if_neg hnot, hins, hperm, htok]
    rfl
  · intro e hperm
    unfold registerUserHandler Password.set bcryptGenerateFromPassword
    simp only [if_neg hnot, hins, hperm]
    rfl

/-- Witness for C10 at concrete inputs: with every store operation
succeeding the handler responds 202 with the permission granted before
the token; with the permission grant failing it responds 500 having only
inserted the user. -/
theorem register_grants_permission_before_token_witness :
    registerUserHandler
        (RegisterOracles.mk (Except.ok ()) (Except.ok ()) (Except.ok ()))
        (some (RegisterInput.mk "Ann" "ann@x.com" "pa55word12")) 0 true
      = (RegisterStatus.s202,
         [RegisterEffect.userInserted "ann@x.com",
          RegisterEffect.permissionGranted "movies:read",
          RegisterEffect.tokenCreated ScopActivation 72,
          RegisterEffect.emailDispatched "ann@x.com"])
    ∧ registerUserHandler
        (RegisterOracles.mk (Except.ok ())
          (Except.error (DataErr.sqlError "insert users_permissions failed"))
          (Except.ok ()))
        (some (RegisterInput.mk "Ann" "ann@x.com" "pa55word12")) 0 true
      = (RegisterStatus.s500, [RegisterEffect.userInserted "ann@x.com"]) := by
  constructor
  · exact (register_grants_permission_before_token
      (RegisterOracles.mk (Except.ok ()) (Except.ok ()) (Except.ok ()))
      (RegisterInput.mk "Ann" "ann@x.com" "pa55word12") 0 (by decide) rfl).1 rfl rfl
  · exact (register_grants_permission_before_token
      (RegisterOracles.mk (Except.ok ())
        (Except.error (DataErr.sqlError "insert users_permissions failed"))
        (Except.ok ()))
      (RegisterInput.mk "Ann" "ann@x.com" "pa55word12") 0 (by decide) rfl).2
      (DataErr.sqlError "insert users_permissions failed") rfl

/-! ## The composed middleware chain -/

/-- Claim C1 refuted at a concrete input: running the routes.go
composition on a plain GET request records the wrappers beginning work in
the order metrics, recoverPanic, enableCORS, rateLimit, authenticate,
router, which differs from the claimed order with panic recovery
outermost and metrics second. -/
theorem chain_order_counterexample :
    ((routesChain (ChainConfig.mk [] true true)
        (fun _ _ => Except.error DataErr.recordNotFound)
        (ChainRequest.mk "" "" false "")
        (fun st => (HandlerOutcome.response 200,
          { st with trace := st.trace ++ [MwLabel.router] })))
      (ChainState.mk [] 0 0 false)).2.trace
      = [MwLabel.metrics, MwLabel.recoverPanic, MwLabel.enableCORS,
         MwLabel.rateLimit, MwLabel.authenticate, MwLabel.router]
    ∧ [MwLabel.metrics, MwLabel.recoverPanic, MwLabel.enableCORS,
       MwLabel.rateLimit, MwLabel.authenticate, MwLabel.router]
      ≠ [MwLabel.recoverPanic, MwLabel.metrics, MwLabel.enableCORS,
         MwLabel.rateLimit, MwLabel.authenticate, MwLabel.router] := by
  exact ⟨rfl, by decide⟩

/-- Claim C1 as amended: the composed chain applies, outermost first,
metrics, then panic recovery, then CORS, then rate limiting, then
authentication, before router dispatch; panic recovery encloses CORS,
rate limiting, authentication and the routed handlers, so a panic there
is converted to a 500 response with the connection marked for close
rather than escaping, while metrics sits outside recovery and counts the
recovered response. Stated for a request that passes every gate: no
Authorization header, no Origin header, and a token bucket that admits
the request. -/
theorem chain_metrics_outermost (cfg : ChainConfig)
    (getForToken : String → String → Except DataErr User) (req : ChainRequest)
    (router : GHandler) (st : ChainState)
    (hauth : req.authorizationHeader = "")
    (hallow : cfg.limiterAllow = true)
    (hcors : req.origin = "") :
    routesChain cfg getForToken req router st
      = (match router { st with
            trace := st.trace ++ [MwLabel.metrics, MwLabel.recoverPanic,
              MwLabel.enableCORS, MwLabel.rateLimit, MwLabel.authenticate],
            requestsReceived := st.requestsReceived + 1 } with
         | (HandlerOutcome.response s, st2) =>
           (HandlerOutcome.response s,
             { st2 with responsesSent := st2.responsesSent + 1 })
         | (HandlerOutcome.panicked _, st2) =>
           (HandlerOutcome.response 500,
             { st2 with connectionClose := true,
                        responsesSent := st2.responsesSent + 1 })) := by
  have hcorsskip : ¬(req.origin ≠ "" ∧ req.origin ∈ cfg.trustedOrigins ∧
      req.isOptionsMethod ∧ req.accessControlRequestMethod ≠ "") := by
    intro hc
    exact hc.1 hcors
  have hrlskip : ¬(cfg.limiterEnabled ∧ cfg.limiterAllow = false) := by
    intro hc
    rw [hallow] at hc
    cases hc.2
  unfold routesChain metricsMW recoverPanicMW enableCORSMW rateLimitMW authenticateMW
  simp only [if_neg hcorsskip, if_neg hrlskip, hauth]
  have hanon : authenticate getForToken "" = (AuthDecision.nextWith AnonymousUser, 0) := rfl
  rw [hanon]
  simp only [List.append_assoc, List.cons_append, List.nil_append]
  cases hrouter : router { st with
      trace := st.trace ++ [MwLabel.metrics, MwLabel.recoverPanic,
        MwLabel.enableCORS, MwLabel.rateLimit, MwLabel.authenticate],
      requestsReceived := st.requestsReceived + 1 } with
  | mk out st2 =>
    cases out with
    | response s => simp [hrouter]
    | panicked m => simp [hrouter]

/-- Witness for the amended C1 at concrete inputs: a router that panics is
converted by the chain into a 500 response with Connection: close, the
entry order being metrics first and recovery second, and metrics counts
the recovered response. -/
theorem chain_metrics_outermost_witness :
    routesChain (ChainConfig.mk [] true true)
        (fun _ _ => Except.error DataErr.recordNotFound)
        (ChainRequest.mk "" "" false "")
        (fun st => (HandlerOutcome.panicked "boom",
          { st with trace := st.trace ++ [MwLabel.router] }))
        (ChainState.mk [] 0 0 false)
      = (HandlerOutcome.response 500,
         ChainState.mk
           [MwLabel.metrics, MwLabel.recoverPanic, MwLabel.enableCORS,
            MwLabel.rateLimit, MwLabel.authenticate, MwLabel.router] 1 1 true) := by
  have h := chain_metrics_outermost (ChainConfig.mk [] true true)
    (fun _ _ => Except.error DataErr.recordNotFound)
    (ChainRequest.mk "" "" false "")
    (fun st => (HandlerOutcome.panicked "boom",
      { st with trace := st.trace ++ [MwLabel.router] }))
    (ChainState.mk [] 0 0 false) rfl rfl rfl
  rw [h]
  rfl

end Greenlight
